import Mathlib

/-!
Shallow embedding of the admission-control and mitigation engine of
`Site-Apresentacao(Anti-DDoS)/servidor.py`.

The request-path state consists of `req_windows` (a per-address deque of
request timestamps; Python `defaultdict(lambda: deque())`) and `banned_ips`
(a Python `set` of excluded addresses).  Timestamps (`time.time()`) are
modelled as `Int`.  Calls to the external `nft` binary are modelled by
passing the subprocess outcome as an explicit argument: `none` stands for
the `subprocess.run` call raising an exception (binary missing), and
`some p` for a completed process with `p.returncode`, `p.stdout`,
`p.stderr`.
-/

namespace Servidor

/-- `WINDOW_SECONDS = 5` (servidor.py line 24). -/
def WINDOW_SECONDS : Int := 5

/-- `THRESHOLD = 20` (servidor.py line 25). -/
def THRESHOLD : Nat := 20

/-- Outcome of a completed `subprocess.run` invocation of `nft`. -/
structure ProcResult where
  returncode : Int
  stdout : String
  stderr : String
  deriving DecidableEq

/-- Whether the character list `sub` is a leading segment of `l`. -/
def leadsWith : List Char → List Char → Bool
  | [], _ => true
  | _ :: _, [] => false
  | a :: sub, b :: l => a == b && leadsWith sub l

/-- Whether the character list `sub` occurs contiguously inside `l`
(Python's `sub in s` on the underlying characters). -/
def hasSub (sub : List Char) : List Char → Bool
  | [] => sub.isEmpty
  | b :: l => leadsWith sub (b :: l) || hasSub sub l

/-- Lowercase one character in the ASCII range (the range Python's
`str.lower()` touches on `nft` error messages). -/
def lowerChar (c : Char) : Char :=
  if 65 ≤ c.toNat ∧ c.toNat ≤ 90 then Char.ofNat (c.toNat + 32) else c

/-- Python's `pat in s.lower()` test used on subprocess stderr. -/
def strContains (s pat : String) : Bool := hasSub pat.data (s.data.map lowerChar)

/-- `nft_block_ip` (servidor.py lines 156-172): returns `True` on exit code 0,
or on a nonzero exit whose stderr (lowercased) contains "already exists" or
"exists"; returns `False` on any other nonzero exit or on an exception
(`none`). -/
def nft_block_ip (res : Option ProcResult) : Bool :=
  match res with
  | none => false
  | some p =>
    if p.returncode != 0 then
      if strContains p.stderr "already exists" || strContains p.stderr "exists" then
        true
      else
        false
    else
      true

/-- `nft_unblock_ip` (servidor.py lines 174-185): returns `True` exactly when
the `nft delete element` call completes with exit code 0; any nonzero exit or
exception yields `False`. -/
def nft_unblock_ip (res : Option ProcResult) : Bool :=
  match res with
  | none => false
  | some p => if p.returncode != 0 then false else true

/-- `run_nft_script` (servidor.py lines 100-110): `(ok, text)` where `ok` is
true exactly when the `nft -f -` call completes with exit code 0. -/
def run_nft_script (res : Option ProcResult) : Bool × String :=
  match res with
  | none => (false, "")
  | some p => if p.returncode != 0 then (false, p.stderr.trim) else (true, p.stdout.trim)

/-- `ensure_nft_table_chain` (servidor.py lines 112-154): fails when the `nft`
binary is unavailable, otherwise succeeds iff applying the base ruleset script
succeeds. -/
def ensure_nft_table_chain (nftAvail : Bool) (scriptRes : Option ProcResult) : Bool :=
  if !nftAvail then
    false
  else
    let r := run_nft_script scriptRes
    if !r.1 then false else true

/-- Outcome of the `__main__` startup sequence (servidor.py lines 374-378). -/
inductive MainOutcome where
  | exited : Nat → MainOutcome
  | running : MainOutcome
  deriving DecidableEq

/-- `__main__` startup (servidor.py lines 374-378): `sys.exit(1)` when
`ensure_nft_table_chain()` fails, otherwise the server keeps running. -/
def main_startup (nftAvail : Bool) (scriptRes : Option ProcResult) : MainOutcome :=
  if ensure_nft_table_chain nftAvail scriptRes then MainOutcome.running
  else MainOutcome.exited 1

/-- The request-path state: `req_windows` (servidor.py line 52, per-address
deque of timestamps, oldest first; absent keys read as the empty deque) and
`banned_ips` (servidor.py line 53, a set, modelled as a duplicate-free list). -/
structure ServerState where
  req_windows : String → List Int
  banned_ips : List String

/-- Python `set.add`: insert the element only when it is not already present. -/
def setAdd (l : List String) (ip : String) : List String :=
  if ip ∈ l then l else ip :: l

/-- `register_request(ip)` (servidor.py lines 209-226).  Appends `now` to the
address's deque, evicts the stale front (`while dq and dq[0] < now -
WINDOW_SECONDS: dq.popleft()`), and when the surviving count reaches
`THRESHOLD`: if the address is already banned it returns at once; otherwise it
calls `nft_block_ip`, adds the address to `banned_ips` only when that call
succeeded, and drops the address's deque (`req_windows.pop(ip, None)`)
regardless.  `blockRes` is the outcome of the embedded `nft` subprocess
call. -/
def register_request (blockRes : Option ProcResult) (ip : String) (now : Int)
    (s : ServerState) : ServerState :=
  let dq := (s.req_windows ip ++ [now]).dropWhile (fun t => t < now - WINDOW_SECONDS)
  if THRESHOLD ≤ dq.length then
    if ip ∈ s.banned_ips then
      ⟨fun k => if k = ip then dq else s.req_windows k, s.banned_ips⟩
    else
      let ok := nft_block_ip blockRes
      let banned := if ok then setAdd s.banned_ips ip else s.banned_ips
      ⟨fun k => if k = ip then [] else s.req_windows k, banned⟩
  else
    ⟨fun k => if k = ip then dq else s.req_windows k, s.banned_ips⟩

/-- The key used for a request: `request.remote_addr or "unknown"`
(servidor.py line 317); both a missing and an empty address are falsy in
Python and fall back to `"unknown"`. -/
def addrKey : Option String → String
  | none => "unknown"
  | some a => if a = "" then "unknown" else a

/-- `before_req` (servidor.py lines 315-325): an address already in
`banned_ips` is answered `abort(404)` immediately and nothing else runs;
otherwise the request is fed to `register_request` and allowed to proceed
(`none` verdict). -/
def before_req (blockRes : Option ProcResult) (remote_addr : Option String)
    (now : Int) (s : ServerState) : Option Nat × ServerState :=
  let ip := addrKey remote_addr
  if ip ∈ s.banned_ips then
    (some 404, s)
  else
    (none, register_request blockRes ip now s)

/-- The `/_internal/unblock/<ip>` route (servidor.py lines 340-348): calls
`nft_unblock_ip`; on success discards the address from `banned_ips` and
returns 200, on failure returns 500 leaving the state untouched. -/
def unblock (res : Option ProcResult) (ip : String) (s : ServerState) :
    Nat × ServerState :=
  if nft_unblock_ip res then
    (200, ⟨s.req_windows, s.banned_ips.erase ip⟩)
  else
    (500, s)

/-- The state at process start: no windows, nobody banned. -/
def emptyState : ServerState := ⟨fun _ => [], []⟩

/-- A burst of `n` requests whose source address is unavailable
(`remote_addr = None`), all arriving at time `now`, with every embedded
`nft` call answering `blockRes`. -/
def run_anonymous_requests (blockRes : Option ProcResult) (now : Int) :
    Nat → ServerState → ServerState
  | 0, s => s
  | n + 1, s => run_anonymous_requests blockRes now n (before_req blockRes none now s).2

/-- A successful embedded `nft` call: exit code 0. -/
def nftOk : Option ProcResult := some ⟨0, "", ""⟩

/-- A failing embedded `nft` call: nonzero exit whose stderr mentions no
existing element (e.g. insufficient privilege). -/
def nftFail : Option ProcResult := some ⟨1, "", "Error: Could not process rule: Operation not permitted"⟩

/-- The backend's answer when asked to delete an element that is not in the
set: the `nft delete element` call exits nonzero and its message does not
mention "exists", so it falls outside the tolerance `nft_block_ip` has for
"already in desired state" answers. -/
def delete_absent_result : ProcResult :=
  ⟨1, "", "Error: Could not process rule: No such file or directory"⟩

/-- A state in which address `1.2.3.4` already has 19 requests timestamped
100 inside its window and nobody is banned. -/
def burstState : ServerState :=
  ⟨fun k => if k = "1.2.3.4" then List.replicate 19 100 else [], []⟩

/-- A state in which address `10.0.0.9` was excluded (say at time `t0 = 100`)
and windows are empty. -/
def excludedState : ServerState := ⟨fun _ => [], ["10.0.0.9"]⟩

/-- A state in which address `5.5.5.5` has two in-window timestamps. -/
def twoReqState : ServerState :=
  ⟨fun k => if k = "5.5.5.5" then [96, 98] else [], []⟩

end Servidor

namespace Servidor

/-- Dropping a leading segment by predicate equals dropping a count: the
`while dq and dq[0] < cutoff: dq.popleft()` loop removes a contiguous front
segment of the deque. -/
theorem exists_drop_of_dropWhile {α : Type} (p : α → Bool) (l : List α) :
    ∃ k, l.dropWhile p = l.drop k := by
  induction l with
  | nil => exact ⟨0, rfl⟩
  | cons a l ih =>
    cases h : p a with
    | true =>
      obtain ⟨k, hk⟩ := ih
      exact ⟨k + 1, by simp [List.dropWhile_cons, h, hk]⟩
    | false =>
      exact ⟨0, by simp [List.dropWhile_cons, h]⟩

/-- On a list that is sorted and bounded above by `now`, the entries that
survive the eviction loop all lie in the closed interval `[c, now]`. -/
theorem mem_dropWhile_bounds (c now : Int) (l : List Int)
    (hs : List.Sorted (· ≤ ·) l) (hb : ∀ t ∈ l, t ≤ now) :
    ∀ t ∈ l.dropWhile (fun x => x < c), c ≤ t ∧ t ≤ now := by
  induction l with
  | nil => intro t ht; simp [List.dropWhile] at ht
  | cons a l ih =>
    rw [List.sorted_cons] at hs
    cases h : (decide (a < c)) with
    | true =>
      simp only [List.dropWhile_cons, h, if_true]
      exact ih hs.2 fun t ht => hb t (List.mem_cons_of_mem _ ht)
    | false =>
      simp only [List.dropWhile_cons, h, Bool.false_eq_true, if_false]
      intro t ht
      have hac : c ≤ a := not_lt.mp (by simpa using h)
      rcases List.mem_cons.mp ht with rfl | htl
      · exact ⟨hac, hb t (List.mem_cons_self _ _)⟩
      · exact ⟨le_trans hac (hs.1 t htl), hb t (List.mem_cons_of_mem _ htl)⟩

/-- After `register_request`, the address's stored window is either the
evicted deque (append `now`, then trim the stale front) or the empty deque
(when the ban branch popped the key). -/
theorem register_request_windows_eq (blockRes : Option ProcResult) (ip : String) (now : Int)
    (s : ServerState) :
    (register_request blockRes ip now s).req_windows ip =
        (s.req_windows ip ++ [now]).dropWhile (fun t => t < now - WINDOW_SECONDS) ∨
      (register_request blockRes ip now s).req_windows ip = [] := by
  simp only [register_request]
  by_cases hlen : THRESHOLD ≤
      ((s.req_windows ip ++ [now]).dropWhile (fun t => t < now - WINDOW_SECONDS)).length
  · by_cases hmem : ip ∈ s.banned_ips
    · rw [if_pos hlen, if_pos hmem]; left; simp
    · rw [if_pos hlen, if_neg hmem]; right; simp
  · rw [if_neg hlen]; left; simp

/-- An address already in `banned_ips` never changes the banned set when fed
to `register_request` again (the ban branch returns before touching it). -/
theorem register_request_banned_of_mem (blockRes : Option ProcResult) (ip : String) (now : Int)
    (s : ServerState) (h : ip ∈ s.banned_ips) :
    (register_request blockRes ip now s).banned_ips = s.banned_ips := by
  simp only [register_request]
  by_cases hlen : THRESHOLD ≤
      ((s.req_windows ip ++ [now]).dropWhile (fun t => t < now - WINDOW_SECONDS)).length
  · rw [if_pos hlen, if_pos h]
  · rw [if_neg hlen]

end Servidor

namespace Servidor

/-- Claim C1, amended: `register_request` marks an address over-limit exactly
when it was already banned, or the embedded backend block call succeeds and
the number of timestamps remaining after prefix eviction is greater than or
equal to `THRESHOLD` (the code tests `len(dq) >= THRESHOLD`); a call after
which the remaining count equals `THRESHOLD` already triggers the ban. -/
theorem register_request_ban_iff (blockRes : Option ProcResult) (ip : String) (now : Int)
    (s : ServerState) :
    ip ∈ (register_request blockRes ip now s).banned_ips ↔
      ip ∈ s.banned_ips ∨
        (nft_block_ip blockRes = true ∧
          THRESHOLD ≤
            ((s.req_windows ip ++ [now]).dropWhile (fun t => t < now - WINDOW_SECONDS)).length) := by
  simp only [register_request]
  by_cases hlen : THRESHOLD ≤
      ((s.req_windows ip ++ [now]).dropWhile (fun t => t < now - WINDOW_SECONDS)).length
  · by_cases hmem : ip ∈ s.banned_ips
    · rw [if_pos hlen, if_pos hmem]
      simp [hmem]
    · rw [if_pos hlen, if_neg hmem]
      cases hok : nft_block_ip blockRes with
      | false => simp [hmem]
      | true => simp [setAdd, hmem, hlen]
  · rw [if_neg hlen]
    simp [hlen]

/-- Claim C1, counterexample: address `1.2.3.4` has 19 in-window timestamps;
one more request at time 100 leaves a post-eviction count exactly equal to
`THRESHOLD`, yet the address is banned — refuting "a call after which the
remaining count equals max_requests is still within limit". -/
theorem ban_at_exact_threshold_count :
    ((burstState.req_windows "1.2.3.4" ++ [100]).dropWhile
        (fun t => t < 100 - WINDOW_SECONDS)).length = THRESHOLD ∧
      "1.2.3.4" ∈ (register_request nftOk "1.2.3.4" 100 burstState).banned_ips := by
  decide

/-- Claim C2, amended: when the packet-filter backend call fails,
`register_request` does not add the address to the local exclusion registry —
the local ban is applied only on backend success (the failure is non-fatal to
the request path, but it does prevent the local exclusion). -/
theorem register_request_backend_failure_no_local_ban (blockRes : Option ProcResult)
    (ip : String) (now : Int) (s : ServerState) (h : nft_block_ip blockRes = false) :
    (register_request blockRes ip now s).banned_ips = s.banned_ips := by
  simp only [register_request]
  by_cases hlen : THRESHOLD ≤
      ((s.req_windows ip ++ [now]).dropWhile (fun t => t < now - WINDOW_SECONDS)).length
  · by_cases hmem : ip ∈ s.banned_ips
    · rw [if_pos hlen, if_pos hmem]
    · rw [if_pos hlen, if_neg hmem]
      simp [h]
  · rw [if_neg hlen]

/-- Claim C2, witness for the amended theorem at a concrete failing backend
call and a concrete state. -/
theorem register_request_backend_failure_no_local_ban_witness :
    nft_block_ip nftFail = false ∧
      (register_request nftFail "7.7.7.7" 100 emptyState).banned_ips = emptyState.banned_ips :=
  ⟨by decide,
   register_request_backend_failure_no_local_ban nftFail "7.7.7.7" 100 emptyState (by decide)⟩

/-- Claim C2, counterexample: address `1.2.3.4` reaches the threshold but the
backend block call fails; the address is NOT excluded locally — refuting "the
address is marked excluded locally even when the packet-filter backend call
fails". -/
theorem backend_failure_prevents_local_exclusion :
    THRESHOLD ≤
        ((burstState.req_windows "1.2.3.4" ++ [100]).dropWhile
          (fun t => t < 100 - WINDOW_SECONDS)).length ∧
      nft_block_ip nftFail = false ∧
      "1.2.3.4" ∉ (register_request nftFail "1.2.3.4" 100 burstState).banned_ips := by
  decide

/-- Claim C5: assuming the timestamps already stored for the address are
nondecreasing and not in the future, after `register_request(ip)` at time
`now` every timestamp remaining in that address's window lies within
`[now - WINDOW_SECONDS, now]`, and the stored window is obtained from the
appended sequence by removing a contiguous oldest-first segment (it equals a
`drop` of the appended sequence). -/
theorem register_request_window_invariant (blockRes : Option ProcResult) (ip : String)
    (now : Int) (s : ServerState) (hs : List.Sorted (· ≤ ·) (s.req_windows ip))
    (hb : ∀ t ∈ s.req_windows ip, t ≤ now) :
    (∀ t ∈ (register_request blockRes ip now s).req_windows ip,
        now - WINDOW_SECONDS ≤ t ∧ t ≤ now) ∧
      ∃ k, (register_request blockRes ip now s).req_windows ip =
        (s.req_windows ip ++ [now]).drop k := by
  have hsapp : List.Sorted (· ≤ ·) (s.req_windows ip ++ [now]) := by
    refine List.pairwise_append.mpr ⟨hs, List.pairwise_singleton _ _, ?_⟩
    intro a ha b hbmem
    have hbnow : b = now := by simpa using hbmem
    subst hbnow
    exact hb a ha
  have hbapp : ∀ t ∈ s.req_windows ip ++ [now], t ≤ now := by
    intro t ht
    rcases List.mem_append.mp ht with hmem | hmem
    · exact hb t hmem
    · have : t = now := by simpa using hmem
      subst this
      exact le_refl _
  rcases register_request_windows_eq blockRes ip now s with heq | heq
  · constructor
    · rw [heq]
      exact mem_dropWhile_bounds (now - WINDOW_SECONDS) now _ hsapp hbapp
    · obtain ⟨k, hk⟩ := exists_drop_of_dropWhile
        (fun t => decide (t < now - WINDOW_SECONDS)) (s.req_windows ip ++ [now])
      exact ⟨k, heq.trans hk⟩
  · constructor
    · rw [heq]
      intro t ht
      simp at ht
    · exact ⟨(s.req_windows ip ++ [now]).length, heq.trans (List.drop_length _).symm⟩

/-- Claim C5, witness: the invariant at a concrete sorted two-entry window. -/
theorem register_request_window_invariant_witness :
    List.Sorted (· ≤ ·) (twoReqState.req_windows "5.5.5.5") ∧
      ((∀ t ∈ (register_request nftOk "5.5.5.5" 100 twoReqState).req_windows "5.5.5.5",
          100 - WINDOW_SECONDS ≤ t ∧ t ≤ 100) ∧
        ∃ k, (register_request nftOk "5.5.5.5" 100 twoReqState).req_windows "5.5.5.5" =
          (twoReqState.req_windows "5.5.5.5" ++ [100]).drop k) :=
  ⟨by decide,
   register_request_window_invariant nftOk "5.5.5.5" 100 twoReqState (by decide) (by decide)⟩

/-- Claim C6: escalation is idempotent for an already-excluded address — the
exclusion registry holds exactly one entry for it and `register_request`
leaves the registry untouched (entries carry no expiry at all, so none is
reset; exclusion is permanent, servidor.py line 226). -/
theorem register_request_idempotent_on_banned (blockRes : Option ProcResult) (ip : String)
    (now : Int) (s : ServerState) (h : s.banned_ips.count ip = 1) :
    (register_request blockRes ip now s).banned_ips = s.banned_ips ∧
      (register_request blockRes ip now s).banned_ips.count ip = 1 := by
  have hmem : ip ∈ s.banned_ips := List.count_pos_iff.mp (by omega)
  have hb := register_request_banned_of_mem blockRes ip now s hmem
  exact ⟨hb, by rw [hb]; exact h⟩

/-- Claim C6, witness: idempotence at a concrete singleton registry. -/
theorem register_request_idempotent_on_banned_witness :
    excludedState.banned_ips.count "10.0.0.9" = 1 ∧
      ((register_request nftOk "10.0.0.9" 200 excludedState).banned_ips =
          excludedState.banned_ips ∧
        (register_request nftOk "10.0.0.9" 200 excludedState).banned_ips.count "10.0.0.9" = 1) :=
  ⟨by decide, register_request_idempotent_on_banned nftOk "10.0.0.9" 200 excludedState (by decide)⟩

end Servidor

namespace Servidor

/-- Claim C3, amended: exclusion is permanent — an address in the exclusion
registry is denied (404) at every later time, `t0+S-1` and `t0+S+1` alike, and
it stays in the registry; there is no expiry, no return to a clean state, and
no violation count to reset (removal happens only through the explicit
administrative unblock route). -/
theorem banned_ip_denied_at_all_later_times (blockRes : Option ProcResult) (ip : String)
    (t : Int) (s : ServerState) (hne : ip ≠ "") (h : ip ∈ s.banned_ips) :
    (before_req blockRes (some ip) t s).1 = some 404 ∧
      ip ∈ (before_req blockRes (some ip) t s).2.banned_ips := by
  have hk : addrKey (some ip) = ip := by simp [addrKey, hne]
  simp [before_req, hk, h]

/-- Claim C3, witness for the amended theorem: the excluded address is still
denied at `t0+S-1 = 104` (with `t0 = 100`, `S = 5`). -/
theorem banned_ip_denied_at_all_later_times_witness :
    ("10.0.0.9" ≠ "" ∧ "10.0.0.9" ∈ excludedState.banned_ips) ∧
      ((before_req nftOk (some "10.0.0.9") 104 excludedState).1 = some 404 ∧
        "10.0.0.9" ∈ (before_req nftOk (some "10.0.0.9") 104 excludedState).2.banned_ips) :=
  ⟨⟨by decide, by decide⟩,
   banned_ip_denied_at_all_later_times nftOk "10.0.0.9" 104 excludedState (by decide) (by decide)⟩

/-- Claim C3, counterexample: address `10.0.0.9` excluded at `t0 = 100` for a
nominal `S = 5` seconds is still denied at `t0+S+1 = 106` — refuting "a
request at `t0+S+1` is admitted pending the other checks". -/
theorem banned_ip_still_denied_after_expiry_time :
    (before_req nftOk (some "10.0.0.9") 106 excludedState).1 = some 404 := by
  decide

/-- Claim C4, amended: a missing `nft` binary or a failing base-ruleset
application at startup is fatal — `ensure_nft_table_chain` fails and
`__main__` calls `sys.exit(1)` instead of degrading to local-only
enforcement. -/
theorem nft_setup_failure_exits_process (res : Option ProcResult) (p : ProcResult)
    (avail : Bool) (hp : p.returncode ≠ 0) :
    main_startup false res = MainOutcome.exited 1 ∧
      main_startup avail (some p) = MainOutcome.exited 1 := by
  constructor
  · simp [main_startup, ensure_nft_table_chain]
  · have hrun : (run_nft_script (some p)).1 = false := by
      simp [run_nft_script, hp]
    cases avail with
    | false => simp [main_startup, ensure_nft_table_chain]
    | true => simp [main_startup, ensure_nft_table_chain, hrun]

/-- Claim C4, witness for the amended theorem at concrete failing startups. -/
theorem nft_setup_failure_exits_process_witness :
    (⟨1, "", ""⟩ : ProcResult).returncode ≠ 0 ∧
      (main_startup false none = MainOutcome.exited 1 ∧
        main_startup true (some ⟨1, "", ""⟩) = MainOutcome.exited 1) :=
  ⟨by decide, nft_setup_failure_exits_process none ⟨1, "", ""⟩ true (by decide)⟩

/-- Claim C4, counterexample: with the `nft` binary unavailable the process
exits with status 1 — refuting "absence or failure of the packet-filter
backend ... never causes the process to exit". -/
theorem missing_nft_binary_exits_process :
    main_startup false nftOk = MainOutcome.exited 1 := by
  decide

/-- Claim C7, amended: the two backend operations are asymmetric —
`nft_block_ip` tolerates "already in desired state" (a nonzero exit whose
lowercased stderr contains "exists") as success, but `nft_unblock_ip` treats
every nonzero exit as failure, so unblocking an already-absent address does
not return success. -/
theorem nft_idempotence_asymmetry :
    (∀ (rc : Int) (out err : String), rc ≠ 0 → strContains err "exists" = true →
        nft_block_ip (some ⟨rc, out, err⟩) = true) ∧
      (∀ p : ProcResult, nft_unblock_ip (some p) = true ↔ p.returncode = 0) := by
  constructor
  · intro rc out err hrc hsub
    simp [nft_block_ip, hrc, hsub]
  · intro p
    by_cases h : p.returncode = 0 <;> simp [nft_unblock_ip, h]

/-- Claim C7, witness for the amended theorem: a duplicate insert reporting
"File exists" is treated as success, and a clean delete succeeds. -/
theorem nft_idempotence_asymmetry_witness :
    nft_block_ip (some ⟨1, "", "File exists"⟩) = true ∧
      nft_unblock_ip (some ⟨0, "", ""⟩) = true :=
  ⟨nft_idempotence_asymmetry.1 1 "" "File exists" (by decide) (by decide),
   (nft_idempotence_asymmetry.2 ⟨0, "", ""⟩).mpr rfl⟩

/-- Claim C7, counterexample: deleting an already-absent element makes the
backend exit nonzero with a message not mentioning "exists", and
`nft_unblock_ip` reports failure — refuting "unblocking an already-unblocked
address returns success". -/
theorem nft_unblock_already_absent_fails :
    nft_unblock_ip (some delete_absent_result) = false := by
  decide

/-- Claim C8: a request from an address already in the exclusion registry is
short-circuited with a 404 and the state is returned untouched — no timestamp
is appended to any window and the registry is unchanged. -/
theorem before_req_banned_short_circuit (blockRes : Option ProcResult)
    (remote_addr : Option String) (now : Int) (s : ServerState)
    (h : addrKey remote_addr ∈ s.banned_ips) :
    before_req blockRes remote_addr now s = (some 404, s) := by
  simp [before_req, h]

/-- Claim C8, witness: the short-circuit at a concrete banned address. -/
theorem before_req_banned_short_circuit_witness :
    addrKey (some "10.0.0.9") ∈ excludedState.banned_ips ∧
      before_req nftOk (some "10.0.0.9") 150 excludedState = (some 404, excludedState) :=
  ⟨by decide, before_req_banned_short_circuit nftOk (some "10.0.0.9") 150 excludedState (by decide)⟩

/-- Claim C9: a request whose source address is unavailable is processed
exactly as one keyed under the literal `"unknown"`, and such requests share
one window and one ban state: 20 addressless requests in one window get the
key `"unknown"` banned as if they came from a single address. -/
theorem unknown_key_shared_state :
    (∀ (blockRes : Option ProcResult) (now : Int) (s : ServerState),
        before_req blockRes none now s = before_req blockRes (some "unknown") now s) ∧
      "unknown" ∈ (run_anonymous_requests nftOk 100 20 emptyState).banned_ips :=
  ⟨fun _ _ _ => rfl, by decide⟩

/-- Claim C10: the administrative unblock route removes the address from the
local registry only when the backend delete succeeds; when it fails the route
answers 500 and the whole state is unchanged. -/
theorem unblock_atomic (res : Option ProcResult) (ip : String) (s : ServerState) :
    (nft_unblock_ip res = false → unblock res ip s = (500, s)) ∧
      (nft_unblock_ip res = true →
        (unblock res ip s).1 = 200 ∧
          (unblock res ip s).2.banned_ips = s.banned_ips.erase ip ∧
          (unblock res ip s).2.req_windows = s.req_windows) := by
  constructor
  · intro h
    simp [unblock, h]
  · intro h
    simp [unblock, h]

/-- Claim C10, witness: the route at one failing and one succeeding backend
delete. -/
theorem unblock_atomic_witness :
    (nft_unblock_ip nftFail = false ∧ unblock nftFail "10.0.0.9" excludedState = (500, excludedState)) ∧
      (nft_unblock_ip nftOk = true ∧ (unblock nftOk "10.0.0.9" excludedState).1 = 200) :=
  ⟨⟨by decide, (unblock_atomic nftFail "10.0.0.9" excludedState).1 (by decide)⟩,
   ⟨by decide, ((unblock_atomic nftOk "10.0.0.9" excludedState).2 (by decide)).1⟩⟩

end Servidor
